import Mathlib

namespace SiteMonitor

/-!
Verification of the SiteMonitor check-execution engine against its
natural-language specification.

The Python sources are shallowly embedded: pure decision logic becomes Lean
functions, stateful components (`StateManager`, `CircuitBreaker`, the monitor
cycle) become explicit state-passing functions together with inductive
reachability relations, and I/O (HTTP responses, DNS resolution, file writes)
is supplied by explicit environment/oracle values.  Python `datetime` values
are modelled as integer timestamps, Python `float` millisecond durations as
natural numbers, and Python dictionaries keyed by strings as functions
`String → Option α` updated pointwise.
-/

/-! ### Python-style string helpers

Python string operations used by the sources (`str.lower`, the `in` substring
operator, `str.startswith`, `str.rstrip("/")`, `str.lstrip("/")`,
`"; ".join`), modelled over `List Char`.
-/

/-- Lower-case one character, as Python `str.lower` does per character. -/
def lowerChar (c : Char) : Char := c.toLower

/-- Python `s.lower()`. -/
def strLower (s : String) : String := (s.toList.map lowerChar).asString

/-- Helper: does the first list occur at the head of the second? -/
def isPrefixL : List Char → List Char → Bool
  | [], _ => true
  | _ :: _, [] => false
  | a :: as, b :: bs => a == b && isPrefixL as bs

/-- Helper: does the first list occur contiguously inside the second? -/
def isInfixL (needle : List Char) : List Char → Bool
  | [] => needle.isEmpty
  | c :: t => isPrefixL needle (c :: t) || isInfixL needle t

/-- Python `needle in hay` on strings. -/
def strContains (hay needle : String) : Bool := isInfixL needle.toList hay.toList

/-- Python `s.startswith(p)`. -/
def strStartsWith (s p : String) : Bool := isPrefixL p.toList s.toList

/-- Python `s.rstrip("/")`. -/
def rstripSlash (s : String) : String :=
  ((s.toList.reverse.dropWhile (· == '/')).reverse).asString

/-- Python `s.lstrip("/")`. -/
def lstripSlash (s : String) : String := (s.toList.dropWhile (· == '/')).asString

/-- The URL-building idiom used by every checker:
`url.rstrip("/") + "/" + endpoint.lstrip("/")`. -/
def joinUrl (base ep : String) : String := rstripSlash base ++ "/" ++ lstripSlash ep

/-- Python `sep.join(parts)`. -/
def joinSep (sep : String) : List String → String
  | [] => ""
  | [x] => x
  | x :: xs => x ++ sep ++ joinSep sep xs

/-! ### `CheckResult` (src/checkers/base_checker.py)

`CheckStatus` and the `CheckResult` dataclass.  The opaque `metrics` and
`details` maps are omitted (no claim depends on their contents); `timestamp`
is an integer clock value and `response_time_ms` a natural number.
-/

/-- Status of a health check (`CheckStatus` enum). -/
inductive CheckStatus
  | success
  | warning
  | failure
  | error
  | timeout
deriving DecidableEq, Repr

/-- Result of a health check (`CheckResult` dataclass). -/
structure CheckResult where
  check_type : String
  timestamp : Int
  status : CheckStatus
  success : Bool
  status_code : Option Nat := none
  response_time_ms : Nat := 0
  error_message : Option String := none
  warning_message : Option String := none
deriving DecidableEq, Repr

/-- `CheckResult.is_success`: the result's status is SUCCESS. -/
def CheckResult.is_success (r : CheckResult) : Bool := r.status == .success

/-- `CheckResult.is_failure`: the status is FAILURE, ERROR or TIMEOUT. -/
def CheckResult.is_failure (r : CheckResult) : Bool :=
  r.status == .failure || r.status == .error || r.status == .timeout

/-- `CheckResult.is_warning`: the status is WARNING. -/
def CheckResult.is_warning (r : CheckResult) : Bool := r.status == .warning

/-! ### Notification decision (src/notifiers/base_notifier.py)

`BaseNotifier.should_notify` compares the current result with the previous
one; the spec describes the same decision as a pure classification function.
-/

/-- `BaseNotifier.should_notify`, with the notifier's `enabled` flag made an
explicit argument. -/
def should_notify (enabled : Bool) (result : CheckResult)
    (previous_result : Option CheckResult) : Bool :=
  if !enabled then false
  else
    match previous_result with
    | none => result.is_failure
    | some p =>
      if p.is_success && result.is_failure then true
      else if p.is_failure && result.is_success then true
      else if !p.is_warning && result.is_warning then true
      else false

/-- Event classification of the spec's `ResultEvaluator`. -/
inductive Classification
  | FirstFailure
  | Downtime
  | Recovery
  | Stable
  | NewWarning
deriving DecidableEq, Repr

/-- Modelled from the spec: the pure `classify(current, previous)` function of
section 4.5, written exactly as the spec's rule list (rules tried in order;
each rule other than the first reads a field of `previous` and therefore
requires a previous result to exist). -/
def classifySpec (current : CheckResult) (previous : Option CheckResult) :
    Classification :=
  match previous with
  | none => if current.is_failure then .FirstFailure else .Stable
  | some p =>
    if p.is_success && current.is_failure then .Downtime
    else if p.is_failure && current.is_success then .Recovery
    else if !p.is_warning && current.is_warning then .NewWarning
    else .Stable

/-! ### AuthChecker login decision (src/checkers/auth_checker.py)

`AuthChecker._perform_login` fetches the login page, POSTs credentials and
scans the response body for indicators; `AuthChecker.check` wraps the login
outcome into a `CheckResult`.  HTTP traffic is supplied by an `AuthHttp`
oracle; the page-scraping of form fields does not influence the claims and is
folded into the oracle's POST response.
-/

/-- Trace events recorded by the embedded checkers: an SSRF-guard validation
of a URL, or an outbound HTTP request. -/
inductive Event
  | validate (url : String)
  | request (method : String) (url : String)
deriving DecidableEq, Repr

/-- Is this event an outbound HTTP request? -/
def Event.isRequest : Event → Bool
  | .request _ _ => true
  | _ => false

/-- Is this event an SSRF-guard validation? -/
def Event.isValidate : Event → Bool
  | .validate _ => true
  | _ => false

/-- The dictionary `_perform_login` returns (the keys the claims read). -/
structure LoginResult where
  success : Bool
  error : Option String := none
  indicators_found : List String := []
  failures_found : List String := []
deriving DecidableEq, Repr

/-- The fixed failure-indicator list of `_perform_login`. -/
def failure_indicators : List String := ["error", "invalid", "incorrect", "fail"]

/-- The body-scanning decision at the end of `_perform_login`: lower-case the
response body, collect the configured success indicators it contains and the
fixed failure indicators it contains, and decide success, failure, or the
ambiguous-result failure. -/
def loginDecision (success_indicators : List String) (body : String) :
    LoginResult :=
  let response_text := strLower body
  let indicators_found :=
    success_indicators.filter (fun ind => strContains response_text (strLower ind))
  let failures_found :=
    failure_indicators.filter (fun ind => strContains response_text ind)
  if !indicators_found.isEmpty && failures_found.isEmpty then
    { success := true, indicators_found := indicators_found }
  else if !failures_found.isEmpty then
    { success := false,
      error := some ("Login failed - found error indicators: "
        ++ joinSep ", " failures_found),
      failures_found := failures_found }
  else
    { success := false,
      error := some "Login result unclear - no success indicators found" }

/-- Kinds of httpx exceptions `_perform_login` catches. -/
inductive HttpExcKind
  | timeoutK
  | connectK
  | otherK
deriving DecidableEq, Repr

/-- HTTP oracle for `_perform_login`: either both the login-page GET and the
credential POST complete (giving the page status and the POST response body),
or one of the two raises. -/
inductive AuthHttp
  | ok (pageStatus : Nat) (pageBody : String) (postBody : String)
      (postCookies : Nat)
  | pageExc (k : HttpExcKind) (msg : String)
  | postExc (pageStatus : Nat) (pageBody : String) (k : HttpExcKind)
      (msg : String)
deriving DecidableEq, Repr

/-- The failure dictionary built by `_perform_login`'s exception handlers. -/
def loginExcResult (k : HttpExcKind) (msg : String) : LoginResult :=
  match k with
  | .timeoutK => { success := false, error := some ("Login timeout: " ++ msg) }
  | .connectK =>
      { success := false, error := some ("Connection error during login: " ++ msg) }
  | .otherK =>
      { success := false, error := some ("Unexpected error during login: " ++ msg) }

/-- `AuthChecker._perform_login`: GET the login page (directly via the client,
with no `_validate_url` call), bail out unless it returns 200, POST the
credentials (again directly via the client), then run the body-scanning
decision.  Returns the login dictionary and the trace of issued requests. -/
def perform_login (success_indicators : List String) (login_url : String)
    (http : AuthHttp) : LoginResult × List Event :=
  match http with
  | .pageExc k msg => (loginExcResult k msg, [.request "get" login_url])
  | .ok pageStatus _ postBody _ =>
    if pageStatus != 200 then
      ({ success := false,
         error := some ("Failed to load login page: HTTP " ++ toString pageStatus) },
       [.request "get" login_url])
    else
      (loginDecision success_indicators postBody,
       [.request "get" login_url, .request "post" login_url])
  | .postExc pageStatus _ k msg =>
    if pageStatus != 200 then
      ({ success := false,
         error := some ("Failed to load login page: HTTP " ++ toString pageStatus) },
       [.request "get" login_url])
    else
      (loginExcResult k msg, [.request "get" login_url, .request "post" login_url])

/-- `AuthChecker.check`: disabled checks short-circuit to SUCCESS, missing
credentials to ERROR, an unexpected exception (the outer handler) to ERROR;
otherwise the `_perform_login` outcome maps to SUCCESS or FAILURE.
`unexpected` models the outer `except Exception` path. -/
def authCheck (enabled : Bool) (username password : String)
    (success_indicators : List String) (login_url : String) (http : AuthHttp)
    (unexpected : Option String) (now : Int) (rtms : Nat) :
    CheckResult × List Event :=
  if !enabled then
    ({ check_type := "authentication", timestamp := now, status := .success,
       success := true, response_time_ms := 0 }, [])
  else if username == "" || password == "" then
    ({ check_type := "authentication", timestamp := now, status := .error,
       success := false, response_time_ms := rtms,
       error_message := some "Credentials not configured" }, [])
  else
    match unexpected with
    | some msg =>
      ({ check_type := "authentication", timestamp := now, status := .error,
         success := false, response_time_ms := rtms,
         error_message := some ("Unexpected error: " ++ msg) }, [])
    | none =>
      let (lr, tr) := perform_login success_indicators login_url http
      if lr.success then
        ({ check_type := "authentication", timestamp := now, status := .success,
           success := true, response_time_ms := rtms }, tr)
      else
        ({ check_type := "authentication", timestamp := now, status := .failure,
           success := false, response_time_ms := rtms,
           error_message := lr.error }, tr)

/-! ### CircuitBreaker (src/utils/circuit_breaker.py)

The breaker is a small state machine; `datetime.now()` becomes an explicit
integer `now` argument, and the wrapped function call becomes a boolean
`succeeds` outcome supplied by the caller.  `CallOutcome` records whether the
wrapped function was invoked at all and, if so, in which breaker state.
-/

/-- `CircuitState` enum. -/
inductive CircuitState
  | CLOSED
  | OPEN
  | HALF_OPEN
deriving DecidableEq, Repr

/-- `CircuitBreaker` instance state. -/
structure CircuitBreaker where
  failure_threshold : Nat
  recovery_timeout : Int
  failure_count : Nat := 0
  last_failure_time : Option Int := none
  state : CircuitState := .CLOSED
deriving DecidableEq, Repr

/-- `CircuitBreaker.__init__` with the given threshold and timeout. -/
def initBreaker (failure_threshold : Nat) (recovery_timeout : Int) :
    CircuitBreaker :=
  { failure_threshold := failure_threshold, recovery_timeout := recovery_timeout }

/-- `CircuitBreaker._should_attempt_reset`. -/
def CircuitBreaker.should_attempt_reset (cb : CircuitBreaker) (now : Int) :
    Bool :=
  match cb.last_failure_time with
  | none => true
  | some t => cb.recovery_timeout ≤ now - t

/-- `CircuitBreaker._on_success`. -/
def CircuitBreaker.on_success (cb : CircuitBreaker) : CircuitBreaker :=
  { cb with failure_count := 0, state := .CLOSED }

/-- `CircuitBreaker._on_failure`. -/
def CircuitBreaker.on_failure (cb : CircuitBreaker) (now : Int) :
    CircuitBreaker :=
  let fc := cb.failure_count + 1
  { cb with failure_count := fc, last_failure_time := some now,
            state := if cb.failure_threshold ≤ fc then .OPEN else cb.state }

/-- Outcome of `CircuitBreaker.call`: the call was refused with
`CircuitOpenError` (the wrapped function was not invoked), or the wrapped
function was invoked while the breaker was in `stateAtCall`. -/
inductive CallOutcome
  | refused
  | invoked (stateAtCall : CircuitState) (succeeded : Bool)
deriving DecidableEq, Repr

/-- `CircuitBreaker.call`: an OPEN breaker either refuses the call or, when
the recovery timeout has elapsed, moves to HALF_OPEN and admits it; an
admitted call runs the wrapped function and feeds the outcome to
`_on_success` or `_on_failure`. -/
def CircuitBreaker.call (cb : CircuitBreaker) (now : Int) (succeeds : Bool) :
    CallOutcome × CircuitBreaker :=
  if cb.state == .OPEN && !cb.should_attempt_reset now then (.refused, cb)
  else
    let cb1 := if cb.state == .OPEN then { cb with state := .HALF_OPEN } else cb
    if succeeds then (.invoked cb1.state true, cb1.on_success)
    else (.invoked cb1.state false, cb1.on_failure now)

/-- `CircuitBreaker.reset`. -/
def CircuitBreaker.reset (cb : CircuitBreaker) : CircuitBreaker :=
  { cb with failure_count := 0, last_failure_time := none, state := .CLOSED }

/-- Breaker states reachable from `__init__` through `call` and `reset`. -/
inductive BreakerReachable (f : Nat) (t : Int) : CircuitBreaker → Prop
  | init : BreakerReachable f t (initBreaker f t)
  | step (cb : CircuitBreaker) (now : Int) (succeeds : Bool) :
      BreakerReachable f t cb → BreakerReachable f t (cb.call now succeeds).snd
  | reset (cb : CircuitBreaker) :
      BreakerReachable f t cb → BreakerReachable f t cb.reset

/-! ### StateManager (src/storage/state_manager.py)

Per-site monitoring state.  Python dictionaries keyed by site name or check
type become functions `String → Option α` with pointwise update; ISO-8601
timestamps become the integer `timestamp` of the recorded result and an
explicit integer `now` for `datetime.now()`.  The `history_size` instance
field is threaded as an explicit argument.
-/

/-- Pointwise update of a string-keyed map, `d[k] = v` on a Python dict. -/
def mapSet {α : Type} (m : String → Option α) (k : String) (v : α) :
    String → Option α :=
  fun x => if x == k then some v else m x

/-- The `circuit_breaker` sub-dictionary of a persisted site state. -/
structure CBRecord where
  is_open : Bool := false
  failure_count : Nat := 0
  last_failure : Option Int := none
deriving Repr

/-- The `statistics` sub-dictionary of a persisted site state. -/
structure SiteStatistics where
  total_checks : Nat := 0
  total_failures : Nat := 0
  consecutive_failures : String → Option Nat := fun _ => none
  last_failure_time : String → Option Int := fun _ => none
  last_recovery_time : String → Option Int := fun _ => none

/-- One site's persisted state (`self.state["sites"][name]`). -/
structure SiteState where
  last_check_time : Option Int := none
  last_results : String → Option CheckResult := fun _ => none
  history : String → Option (List CheckResult) := fun _ => none
  statistics : SiteStatistics := {}
  circuit_breaker : CBRecord := {}

/-- The `global` sub-dictionary of the manager state. -/
structure GlobalStats where
  last_check_time : Option Int := none
  total_checks : Nat := 0
deriving Repr

/-- The full `StateManager.state` dictionary. -/
structure ManagerState where
  sites : String → Option SiteState := fun _ => none
  globalStats : GlobalStats := {}

/-- The fresh state built by `StateManager.__init__`. -/
def initialManagerState : ManagerState := {}

/-- The default per-site dictionary `_get_site_state` creates lazily; its
`circuit_breaker.is_open` is `False`. -/
def defaultSiteState : SiteState := {}

/-- Read a site's state the way `_get_site_state` produces it (the lazily
created default when the site is not yet present). -/
def siteStateOf (st : ManagerState) (site : String) : SiteState :=
  (st.sites site).getD defaultSiteState

/-- The stored history list for a site and check type (empty when absent). -/
def histOf (st : ManagerState) (site ctype : String) : List CheckResult :=
  ((siteStateOf st site).history ctype).getD []

/-- The Python trim `history[-self.history_size:]`, applied only when the
length exceeds `history_size`.  Note Python's `-0 == 0`: with
`history_size = 0` the slice `history[-0:]` is the whole list and nothing is
trimmed. -/
def pyTrim (history_size : Nat) (h : List CheckResult) : List CheckResult :=
  if history_size < h.length then
    (if history_size == 0 then h else h.drop (h.length - history_size))
  else h

/-- `StateManager.record_result`: bump the global counters, lazily create the
site state, store the last result, append to (and trim) the history, update
the statistics and the persisted circuit-breaker counters. -/
def record_result (history_size : Nat) (st : ManagerState) (result : CheckResult)
    (site_name : String) (now : Int) : ManagerState :=
  let check_type := result.check_type
  let g : GlobalStats :=
    { last_check_time := some now,
      total_checks := st.globalStats.total_checks + 1 }
  let ss := siteStateOf st site_name
  let ss := { ss with last_check_time := some now }
  let ss := { ss with last_results := mapSet ss.last_results check_type result }
  let history := (ss.history check_type).getD []
  let history := history ++ [result]
  let history := pyTrim history_size history
  let ss := { ss with history := mapSet ss.history check_type history }
  let stats := { ss.statistics with total_checks := ss.statistics.total_checks + 1 }
  let ss :=
    if result.is_failure then
      let cf := (stats.consecutive_failures check_type).getD 0 + 1
      let stats :=
        { stats with
            total_failures := stats.total_failures + 1,
            consecutive_failures := mapSet stats.consecutive_failures check_type cf,
            last_failure_time :=
              mapSet stats.last_failure_time check_type result.timestamp }
      { ss with
          statistics := stats,
          circuit_breaker :=
            { ss.circuit_breaker with
                failure_count := ss.circuit_breaker.failure_count + 1,
                last_failure := some result.timestamp } }
    else
      let stats :=
        match stats.consecutive_failures check_type with
        | none => stats
        | some prev =>
          let stats :=
            if 0 < prev then
              { stats with
                  last_recovery_time :=
                    mapSet stats.last_recovery_time check_type result.timestamp }
            else stats
          { stats with
              consecutive_failures := mapSet stats.consecutive_failures check_type 0 }
      { ss with
          statistics := stats,
          circuit_breaker := { ss.circuit_breaker with failure_count := 0 } }
  { st with globalStats := g, sites := mapSet st.sites site_name ss }

/-- `StateManager.get_last_result` (its read-out; the lazy creation of a
default site entry does not change the returned value). -/
def get_last_result (st : ManagerState) (check_type site_name : String) :
    Option CheckResult :=
  (siteStateOf st site_name).last_results check_type

/-- `StateManager.get_history`: `history[-count:] if history else []`, again
with Python's `-0 == 0` quirk for `count = 0`. -/
def get_history (st : ManagerState) (check_type : String) (count : Nat)
    (site_name : String) : List CheckResult :=
  match (siteStateOf st site_name).history check_type with
  | none => []
  | some history =>
    if history.isEmpty then []
    else if count == 0 then history
    else history.drop (history.length - count)

/-- `StateManager.get_consecutive_failures`. -/
def get_consecutive_failures (st : ManagerState) (check_type site_name : String) :
    Nat :=
  ((siteStateOf st site_name).statistics.consecutive_failures check_type).getD 0

/-- The old single-site persisted format `_migrate_old_state` consumes. -/
structure OldState where
  last_check_time : Option Int := none
  last_results : String → Option CheckResult := fun _ => none
  history : String → Option (List CheckResult) := fun _ => none
  statistics : SiteStatistics := {}

/-- `StateManager._migrate_old_state`: the old content becomes the
"InfoRuta RCE" site with a freshly zeroed circuit-breaker record. -/
def migrate_old_state (st : ManagerState) (old : OldState) : ManagerState :=
  let ss : SiteState :=
    { last_check_time := old.last_check_time,
      last_results := old.last_results,
      history := old.history,
      statistics := old.statistics,
      circuit_breaker :=
        { is_open := false, failure_count := 0, last_failure := none } }
  { st with
      sites := mapSet st.sites "InfoRuta RCE" ss,
      globalStats := { st.globalStats with total_checks := old.statistics.total_checks } }

/-- `StateManager.clear_history` for one site (specific check type or all). -/
def clear_history (st : ManagerState) (check_type : Option String)
    (site_name : String) : ManagerState :=
  let ss := siteStateOf st site_name
  let ss :=
    match check_type with
    | some ct =>
      match ss.history ct with
      | some _ => { ss with history := mapSet ss.history ct [] }
      | none => ss
    | none => { ss with history := fun _ => none }
  { st with sites := mapSet st.sites site_name ss }

/-- A read through `_get_site_state` (used by `get_last_result`,
`get_history`, `get_statistics`, `get_summary`): it creates the default site
entry when absent and changes nothing else. -/
def touch_site (st : ManagerState) (site_name : String) : ManagerState :=
  match st.sites site_name with
  | some _ => st
  | none => { st with sites := mapSet st.sites site_name defaultSiteState }

/-! ### save_state (src/storage/state_manager.py)

`save_state` performs directory creation, a temp-file write with fsync, and
an atomic rename, all inside a `try` whose `except` logs and returns
`False`.  The filesystem is an oracle naming which step, if any, fails.
-/

/-- Filesystem oracle for one `save_state` attempt. -/
inductive SaveEnv
  | ok
  | mkdirFail (msg : String)
  | mkstempFail (msg : String)
  | writeFail (msg : String)
  | fsyncFail (msg : String)
  | renameFail (msg : String)
deriving DecidableEq, Repr

/-- The body of `save_state` up to its outer `except`: each filesystem step
can raise. -/
def saveAttempt (env : SaveEnv) : Except String Unit :=
  match env with
  | .ok => .ok ()
  | .mkdirFail msg => .error msg
  | .mkstempFail msg => .error msg
  | .writeFail msg => .error msg
  | .fsyncFail msg => .error msg
  | .renameFail msg => .error msg

/-- `StateManager.save_state`: any exception from the write path is caught,
logged, and turned into `False`; nothing propagates. -/
def save_state (env : SaveEnv) : Bool :=
  match saveAttempt env with
  | .ok _ => true
  | .error _ => false

/-- `record_result` followed by its auto-save: the in-memory update and the
persistence outcome.  The code ignores `save_state`'s return value, so the
state component never depends on the filesystem. -/
def record_result_io (history_size : Nat) (st : ManagerState)
    (result : CheckResult) (site_name : String) (now : Int) (env : SaveEnv) :
    ManagerState × Bool :=
  (record_result history_size st result site_name now, save_state env)

/-- States reachable from a fresh `StateManager` by `record_result` calls
with a fixed configured `history_size`. -/
inductive RecordReachable (history_size : Nat) : ManagerState → Prop
  | init : RecordReachable history_size initialManagerState
  | record (st : ManagerState) (r : CheckResult) (site : String) (now : Int) :
      RecordReachable history_size st →
      RecordReachable history_size (record_result history_size st r site now)

/-- A concrete failing check result used by the concrete-state theorems. -/
def rFail : CheckResult :=
  { check_type := "uptime", timestamp := 0, status := .failure, success := false }

/-- A concrete successful check result used by the concrete-state theorems. -/
def rOk : CheckResult :=
  { check_type := "uptime", timestamp := 0, status := .success, success := true }

/-- States reachable through the `StateManager` operations named by the
claim: a fresh manager, `record_result`, migration of an old single-site
file, `clear_history`, and the lazy site creation performed by the read
operations. -/
inductive SMOps : ManagerState → Prop
  | init : SMOps initialManagerState
  | record (st : ManagerState) (history_size : Nat) (r : CheckResult)
      (site : String) (now : Int) :
      SMOps st → SMOps (record_result history_size st r site now)
  | migrate (st : ManagerState) (old : OldState) :
      SMOps st → SMOps (migrate_old_state st old)
  | clear (st : ManagerState) (ct : Option String) (site : String) :
      SMOps st → SMOps (clear_history st ct site)
  | touch (st : ManagerState) (site : String) :
      SMOps st → SMOps (touch_site st site)

/-! ### URL parsing and IP classification (stdlib behaviour used by
base_checker.py)

`_validate_url` leans on `urllib.parse.urlparse` and the `ipaddress` module.
Both are modelled here: `urlparseModel` extracts the scheme and the
lower-cased, bracket- and port-stripped hostname exactly as
`urlparse(url).hostname` does for the URLs of interest, and the `IpAddr`
classifiers mirror the `ipaddress` property tables (`_private_networks`,
loopback, link-local, multicast, reserved) for IPv4 fully and for IPv6 on
the network blocks the validator can encounter.
-/

/-- Split a character list at every occurrence of `c` (Python `str.split`). -/
def splitOnChar (c : Char) : List Char → List (List Char)
  | [] => [[]]
  | x :: xs =>
    if x == c then [] :: splitOnChar c xs
    else
      match splitOnChar c xs with
      | [] => [[x]]
      | g :: gs => (x :: g) :: gs

/-- Split at the first occurrence of `c`, returning the parts before and
after it. -/
def splitFirst (c : Char) : List Char → Option (List Char × List Char)
  | [] => none
  | x :: xs =>
    if x == c then some ([], xs)
    else (splitFirst c xs).map (fun p => (x :: p.fst, p.snd))

/-- The part of a netloc after its last `@` (Python `netloc.rpartition('@')`,
which discards user-info). -/
def dropUserinfo (l : List Char) : List Char :=
  if l.contains '@' then (l.reverse.takeWhile (· != '@')).reverse else l

/-- Python `s.strip("[]")`. -/
def stripBrackets (s : String) : String :=
  (((s.toList.dropWhile (fun c => c == '[' || c == ']')).reverse.dropWhile
    (fun c => c == '[' || c == ']')).reverse).asString

/-- Numeric value of a decimal digit (code point 48 is `0`). -/
def decDigitVal (c : Char) : Nat := c.toNat - 48

/-- Numeric value of a hexadecimal digit, if the character is one; lower- and
upper-case letter digits sit at code points 97 and 65. -/
def hexDigitVal (c : Char) : Option Nat :=
  let n := c.toNat
  if 48 ≤ n && n ≤ 57 then some (n - 48)
  else if 97 ≤ n && n ≤ 102 then some (n - 87)
  else if 65 ≤ n && n ≤ 70 then some (n - 55)
  else none

/-- One dotted-quad octet as `ipaddress` accepts it: one to three decimal
digits, no leading zero, value at most 255. -/
def parseOctet (l : List Char) : Option Nat :=
  if l.isEmpty || 3 < l.length then none
  else if !(l.all Char.isDigit) then none
  else if 1 < l.length && l.headD '0' == '0' then none
  else
    let v := l.foldl (fun acc c => acc * 10 + decDigitVal c) 0
    if v ≤ 255 then some v else none

/-- Parse a dotted-quad IPv4 address from characters. -/
def parseIPv4chars (l : List Char) : Option (Nat × Nat × Nat × Nat) :=
  match (splitOnChar '.' l).mapM parseOctet with
  | some [a, b, c, d] => some (a, b, c, d)
  | _ => none

/-- Parse a dotted-quad IPv4 address (`ipaddress.IPv4Address`). -/
def parseIPv4 (s : String) : Option (Nat × Nat × Nat × Nat) :=
  parseIPv4chars s.toList

/-- One IPv6 hextet: one to four hexadecimal digits. -/
def parseHextet (l : List Char) : Option Nat :=
  if l.isEmpty || 4 < l.length then none
  else (l.mapM hexDigitVal).map (List.foldl (fun acc d => acc * 16 + d) 0)

/-- Split at the first `::`, if any. -/
def splitDoubleColon : List Char → Option (List Char × List Char)
  | [] => none
  | ':' :: ':' :: rest => some ([], rest)
  | x :: xs => (splitDoubleColon xs).map (fun p => (x :: p.fst, p.snd))

/-- Parse a colon-separated group list; the final group may be a dotted-quad
IPv4 tail (worth two hextets) when `allowV4Tail` is set. -/
def parsePartsAux (allowV4Tail : Bool) : List (List Char) → Option (List Nat)
  | [] => some []
  | [p] =>
    match parseHextet p with
    | some h => some [h]
    | none =>
      if allowV4Tail then
        match parseIPv4chars p with
        | some (a, b, c, d) => some [a * 256 + b, c * 256 + d]
        | none => none
      else none
  | p :: rest => do
    let h ← parseHextet p
    let t ← parsePartsAux allowV4Tail rest
    pure (h :: t)

/-- Parse one side of a `::`-compressed IPv6 address. -/
def parseGroups (allowV4Tail : Bool) (l : List Char) : Option (List Nat) :=
  if l.isEmpty then some [] else parsePartsAux allowV4Tail (splitOnChar ':' l)

/-- Parse an IPv6 address (`ipaddress.IPv6Address`) into its eight hextets. -/
def parseIPv6 (s : String) : Option (List Nat) :=
  let l := s.toList
  match splitDoubleColon l with
  | some (left, right) =>
    if (splitDoubleColon right).isSome then none
    else do
      let lg ← parseGroups false left
      let rg ← parseGroups true right
      let total := lg.length + rg.length
      if total ≤ 7 then pure (lg ++ List.replicate (8 - total) 0 ++ rg)
      else none
  | none => do
    let g ← parseGroups true l
    if g.length == 8 then pure g else none

/-- A parsed IP literal (`ipaddress.ip_address`). -/
inductive IpAddr
  | v4 (a b c d : Nat)
  | v6 (hextets : List Nat)
deriving DecidableEq, Repr

/-- `ipaddress.ip_address`: try IPv4 first, then IPv6. -/
def parseIp (s : String) : Option IpAddr :=
  match parseIPv4 s with
  | some (a, b, c, d) => some (.v4 a b c d)
  | none => (parseIPv6 s).map .v6

/-- IPv4 `is_private` (the `_private_networks` table of `ipaddress`). -/
def ipv4IsPrivate (a b c d : Nat) : Bool :=
  a == 0 || a == 10 || a == 127
  || (a == 169 && b == 254)
  || (a == 172 && 16 ≤ b && b ≤ 31)
  || (a == 192 && b == 0 && c == 0 && d ≤ 7)
  || (a == 192 && b == 0 && c == 0 && (d == 170 || d == 171))
  || (a == 192 && b == 0 && c == 2)
  || (a == 192 && b == 168)
  || (a == 198 && (b == 18 || b == 19))
  || (a == 198 && b == 51 && c == 100)
  || (a == 203 && b == 0 && c == 113)
  || 240 ≤ a

/-- IPv4 `is_loopback`. -/
def ipv4IsLoopback (a : Nat) : Bool := a == 127

/-- IPv4 `is_link_local`. -/
def ipv4IsLinkLocal (a b : Nat) : Bool := a == 169 && b == 254

/-- First hextet of an IPv6 address. -/
def hx0 (h : List Nat) : Nat := h.headD 0

/-- First byte of an IPv6 address. -/
def ipv6Byte0 (h : List Nat) : Nat := hx0 h / 256

/-- IPv6 `is_loopback` (`::1`). -/
def ipv6IsLoopback (h : List Nat) : Bool := h == [0, 0, 0, 0, 0, 0, 0, 1]

/-- IPv6 `is_multicast` (`ff00::/8`). -/
def ipv6IsMulticast (h : List Nat) : Bool := ipv6Byte0 h == 0xff

/-- IPv6 `is_link_local` (`fe80::/10`). -/
def ipv6IsLinkLocal (h : List Nat) : Bool := hx0 h / 64 == 0xfe80 / 64

/-- IPv6 Unique Local Addresses `fc00::/7`, as the source tests them:
`ip.packed[0] & 0xfe == 0xfc`. -/
def ipv6IsULA (h : List Nat) : Bool := ipv6Byte0 h / 2 == 0xfc / 2

/-- The embedded IPv4 of an IPv4-mapped IPv6 address (`::ffff:0:0/96`). -/
def ipv6V4Mapped (h : List Nat) : Option (Nat × Nat × Nat × Nat) :=
  if h.take 5 == [0, 0, 0, 0, 0] && h.getD 5 0 == 0xffff then
    some (h.getD 6 0 / 256, h.getD 6 0 % 256, h.getD 7 0 / 256, h.getD 7 0 % 256)
  else none

/-- IPv6 `is_private` (the `_private_networks` table: `::1/128`, `::/128`,
`100::/64`, `2001::/23` with its sub-blocks, `fc00::/7`, `fe80::/10`; an
IPv4-mapped address reports the privacy of its embedded IPv4 address, as in
current CPython). -/
def ipv6IsPrivate (h : List Nat) : Bool :=
  ipv6IsLoopback h
  || h == [0, 0, 0, 0, 0, 0, 0, 0]
  || (match ipv6V4Mapped h with
      | some (a, b, c, d) => ipv4IsPrivate a b c d
      | none => false)
  || (hx0 h == 0x100 && h.getD 1 0 == 0 && h.getD 2 0 == 0 && h.getD 3 0 == 0)
  || (hx0 h == 0x2001 && h.getD 1 0 < 0x200)
  || ipv6IsULA h
  || ipv6IsLinkLocal h

/-- IPv6 `is_reserved` (the `_reserved_networks` union: every first-byte
block outside global unicast `2000::/3`, ULA `fc00::/7`, `fe80::/10` above
`fe7f`, and multicast `ff00::/8`). -/
def ipv6IsReserved (h : List Nat) : Bool :=
  ipv6Byte0 h ≤ 0x1f
  || (0x40 ≤ ipv6Byte0 h && ipv6Byte0 h ≤ 0xfb)
  || (ipv6Byte0 h == 0xfe && hx0 h % 256 ≤ 0x7f && hx0 h / 128 == 0xfe00 / 128)

/-- `is_private` over a parsed literal. -/
def IpAddr.is_private : IpAddr → Bool
  | .v4 a b c d => ipv4IsPrivate a b c d
  | .v6 h => ipv6IsPrivate h

/-- `is_loopback` over a parsed literal. -/
def IpAddr.is_loopback : IpAddr → Bool
  | .v4 a _ _ _ => ipv4IsLoopback a
  | .v6 h => ipv6IsLoopback h

/-- `is_link_local` over a parsed literal. -/
def IpAddr.is_link_local : IpAddr → Bool
  | .v4 a b _ _ => ipv4IsLinkLocal a b
  | .v6 h => ipv6IsLinkLocal h

/-- `is_multicast` over a parsed literal. -/
def IpAddr.is_multicast : IpAddr → Bool
  | .v4 a _ _ _ => 224 ≤ a && a ≤ 239
  | .v6 h => ipv6IsMulticast h

/-- `is_reserved` over a parsed literal. -/
def IpAddr.is_reserved : IpAddr → Bool
  | .v4 a _ _ _ => 240 ≤ a
  | .v6 h => ipv6IsReserved h

/-- The parts of `urlparse(url)` read by `_validate_url`. -/
structure ParsedUrl where
  scheme : String
  hostname : Option String
deriving DecidableEq, Repr

/-- Is this character allowed in a URL scheme after the first letter? -/
def isSchemeChar (c : Char) : Bool :=
  c.isAlphanum || c == '+' || c == '-' || c == '.'

/-- `urllib.parse.urlparse`, restricted to the `scheme` and `hostname`
attributes: a leading `letter(letter|digit|+|-|.)*:` is the scheme
(lower-cased); a following `//` introduces the netloc, whose hostname is
obtained by discarding user-info and the port and stripping IPv6 brackets,
lower-cased, with the empty hostname reported as `None`. -/
def urlparseModel (url : String) : ParsedUrl :=
  let l := url.toList
  let (scheme, rest) :=
    match splitFirst ':' l with
    | some (before, after) =>
      if !before.isEmpty && (before.headD 'a').isAlpha && before.all isSchemeChar
      then ((before.map lowerChar).asString, after)
      else ("", l)
    | none => ("", l)
  match rest with
  | '/' :: '/' :: tl =>
    let netloc := tl.takeWhile (fun c => c != '/' && c != '?' && c != '#')
    let hostPort := dropUserinfo netloc
    let host :=
      match hostPort with
      | '[' :: inside => inside.takeWhile (· != ']')
      | _ => hostPort.takeWhile (· != ':')
    let host := host.map lowerChar
    { scheme := scheme,
      hostname := if host.isEmpty then none else some host.asString }
  | _ => { scheme := scheme, hostname := none }

/-! ### The SSRF guard `_validate_url` (src/checkers/base_checker.py) -/

/-- The localhost alias list of `_validate_url` (the bracketed entries can
never match a hostname, since `urlparse` strips brackets; they are kept
verbatim from the source). -/
def localhost_patterns : List String :=
  ["localhost", "127.0.0.1", "::1", "0.0.0.0",
   "0000:0000:0000:0000:0000:0000:0000:0001",
   "[::1]", "[0:0:0:0:0:0:0:1]"]

/-- The cloud metadata endpoint list of `_validate_url`. -/
def metadata_endpoints : List String :=
  ["169.254.169.254", "metadata.google.internal", "metadata", "instance-data",
   "fd00:ec2::254"]

/-- The textual private-range prefixes checked on non-IP hostnames. -/
def private_ip_prefixes : List String :=
  ["10.", "172.16.", "172.17.", "172.18.", "172.19.",
   "172.20.", "172.21.", "172.22.", "172.23.", "172.24.",
   "172.25.", "172.26.", "172.27.", "172.28.", "172.29.",
   "172.30.", "172.31.", "192.168."]

/-- `BaseChecker._resolve_and_validate_dns`: resolve through the DNS oracle
and reject private, loopback, link-local, reserved or multicast answers. -/
def resolve_and_validate_dns (dns : String → Except String String)
    (hostname : String) : Except String String :=
  match dns hostname with
  | .error e =>
    .error ("Failed to resolve hostname " ++ hostname ++ ": " ++ e)
  | .ok resolved_ip_str =>
    match parseIp resolved_ip_str with
    | none => .error ("Failed to resolve hostname " ++ hostname)
    | some resolved_ip =>
      if resolved_ip.is_private then
        .error ("Hostname " ++ hostname ++ " resolves to private IP")
      else if resolved_ip.is_loopback then
        .error ("Hostname " ++ hostname ++ " resolves to loopback address")
      else if resolved_ip.is_link_local then
        .error ("Hostname " ++ hostname ++ " resolves to link-local address")
      else if resolved_ip.is_reserved || resolved_ip.is_multicast then
        .error ("Hostname " ++ hostname ++ " resolves to reserved/multicast IP")
      else .ok resolved_ip_str

/-- `BaseChecker._validate_url`: the SSRF guard, with DNS resolution
supplied by the `dns` oracle.  Returns `.ok ()` where the source returns
`True` and `.error msg` where it raises `SSRFProtectionError`. -/
def validate_url (dns : String → Except String String) (url : String)
    (validate_dns : Bool) : Except String Unit :=
  let parsed := urlparseModel url
  if !(parsed.scheme == "http" || parsed.scheme == "https") then
    .error ("Invalid URL scheme " ++ parsed.scheme
      ++ ". Only http and https are allowed.")
  else
    match parsed.hostname with
    | none => .error "URL must have a valid hostname"
    | some h =>
      let hostname := strLower h
      if localhost_patterns.contains hostname
          || strStartsWith hostname "127." then
        .error ("Localhost addresses are not allowed: " ++ hostname)
      else if metadata_endpoints.contains hostname
          || strStartsWith hostname "169.254." then
        .error ("Cloud metadata endpoints are not allowed: " ++ hostname)
      else
        match parseIp (stripBrackets hostname) with
        | some ip =>
          if ip.is_private then
            .error ("Private IP addresses are not allowed: " ++ hostname)
          else if ip.is_loopback then
            .error ("Loopback addresses are not allowed: " ++ hostname)
          else if ip.is_link_local then
            .error ("Link-local addresses are not allowed: " ++ hostname)
          else if ip.is_multicast then
            .error ("Multicast addresses are not allowed: " ++ hostname)
          else if ip.is_reserved then
            .error ("Reserved IP addresses are not allowed: " ++ hostname)
          else
            match ip with
            | .v4 _ _ _ _ => .ok ()
            | .v6 hx =>
              if ipv6IsULA hx then
                .error ("IPv6 Unique Local Addresses are not allowed: "
                  ++ hostname)
              else
                match ipv6V4Mapped hx with
                | some (a, b, c, d) =>
                  if ipv4IsPrivate a b c d || ipv4IsLoopback a
                      || ipv4IsLinkLocal a b then
                    .error ("IPv6-mapped private IPv4 addresses are not allowed: "
                      ++ hostname)
                  else .ok ()
                | none => .ok ()
        | none =>
          if private_ip_prefixes.any (fun p => strStartsWith hostname p) then
            .error ("Private IP ranges are not allowed: " ++ hostname)
          else if validate_dns then
            match resolve_and_validate_dns dns hostname with
            | .error e => .error e
            | .ok _ => .ok ()
          else .ok ()

/-! ### Redirect validation and `_make_request` (src/checkers/base_checker.py)

`_make_request` validates the target URL, issues the request through the
redirect-following client, and then re-validates every redirect hop recorded
in `response.history`, resolving relative `Location` headers against the
current hop's URL with `urljoin`.
-/

/-- `urllib.parse.urljoin` for the reference kinds the redirect code meets:
scheme-relative (`//host/…`), absolute-path (`/…`) and relative-path
references, resolved against an absolute base URL (dot-segment
normalisation is not modelled). -/
def urljoinModel (base rel : String) : String :=
  if rel.isEmpty then base
  else
    let bl := base.toList
    let (bscheme, brest) :=
      match splitFirst ':' bl with
      | some (bs, af) =>
        if !bs.isEmpty && (bs.headD 'a').isAlpha && bs.all isSchemeChar then
          (bs.asString, af)
        else ("", bl)
      | none => ("", bl)
    let (netloc, bpath) :=
      match brest with
      | '/' :: '/' :: tl =>
        (tl.takeWhile (fun c => c != '/' && c != '?' && c != '#'),
         tl.dropWhile (fun c => c != '/' && c != '?' && c != '#'))
      | _ => ([], brest)
    let rl := rel.toList
    if isPrefixL ['/', '/'] rl then bscheme ++ ":" ++ rel
    else if rl.headD ' ' == '/' then bscheme ++ "://" ++ netloc.asString ++ rel
    else
      let dir := (bpath.reverse.dropWhile (· != '/')).reverse
      let dir := if dir.isEmpty then ['/'] else dir
      bscheme ++ "://" ++ netloc.asString ++ dir.asString ++ rel

/-- One entry of `response.history`: whether it is a redirect response and
its `Location` header, if present. -/
structure Hop where
  is_redirect : Bool := true
  location : Option String := none
deriving DecidableEq, Repr

/-- `BaseChecker._validate_redirect_url`: an empty redirect URL is skipped;
a scheme-less (relative) one is resolved against the base URL with
`urljoin`; the result goes through `_validate_url` with DNS validation. -/
def validate_redirect_url (dns : String → Except String String)
    (redirect_url base_url : String) : Except String Unit :=
  if redirect_url.isEmpty then .ok ()
  else
    let resolved :=
      if (urlparseModel redirect_url).scheme == "" then
        urljoinModel base_url redirect_url
      else redirect_url
    validate_url dns resolved true

/-- The redirect-history loop of `_make_request`: walk the hops keeping the
current URL; every redirect hop with a non-empty `Location` is re-validated
(relative locations resolved against the current URL first) and becomes the
new current URL; a validation failure aborts the walk.  Also returns the
trace of guard validations performed. -/
def processHistory (dns : String → Except String String) (current_url : String) :
    List Hop → Except String Unit × List Event
  | [] => (.ok (), [])
  | hop :: rest =>
    if hop.is_redirect then
      match hop.location with
      | some loc =>
        if !loc.isEmpty then
          let resolved :=
            if (urlparseModel loc).scheme == "" then urljoinModel current_url loc
            else loc
          match validate_redirect_url dns loc current_url with
          | .error e => (.error e, [.validate resolved])
          | .ok _ =>
            let (res, evs) := processHistory dns resolved rest
            (res, .validate resolved :: evs)
        else processHistory dns current_url rest
      | none => processHistory dns current_url rest
    else processHistory dns current_url rest

/-- The sequence of resolved redirect targets a hop list yields from a given
starting URL (the URLs `processHistory` validates, in order). -/
def resolvedChain (current_url : String) : List Hop → List String
  | [] => []
  | hop :: rest =>
    if hop.is_redirect then
      match hop.location with
      | some loc =>
        if !loc.isEmpty then
          let resolved :=
            if (urlparseModel loc).scheme == "" then urljoinModel current_url loc
            else loc
          resolved :: resolvedChain resolved rest
        else resolvedChain current_url rest
      | none => resolvedChain current_url rest
    else resolvedChain current_url rest

/-- Errors `_make_request` can raise. -/
inductive ReqError
  | ssrf (msg : String)
  | timeoutErr (msg : String)
  | httpErr (msg : String)
deriving DecidableEq, Repr

/-- The response data the checkers read. -/
structure HttpResponse where
  status_code : Nat
  body : String
  history : List Hop := []
  cookies : Nat := 0
deriving DecidableEq, Repr

/-- Network oracle for one request issued through the client. -/
inductive ReqOutcome
  | resp (r : HttpResponse)
  | timeoutExc (msg : String)
  | httpExc (msg : String)
deriving DecidableEq, Repr

/-- `BaseChecker._make_request`: validate the URL (SSRF guard), issue the
request, then validate every redirect hop; any guard failure surfaces as an
`SSRFProtectionError`.  The second component is the event trace. -/
def make_request (dns : String → Except String String) (method url : String)
    (out : ReqOutcome) (validate_dns : Bool) :
    Except ReqError HttpResponse × List Event :=
  match validate_url dns url validate_dns with
  | .error e => (.error (.ssrf e), [.validate url])
  | .ok _ =>
    match out with
    | .timeoutExc m => (.error (.timeoutErr m), [.validate url, .request method url])
    | .httpExc m => (.error (.httpErr m), [.validate url, .request method url])
    | .resp r =>
      let (res, evs) := processHistory dns url r.history
      match res with
      | .error e =>
        (.error (.ssrf e), [.validate url, .request method url] ++ evs)
      | .ok _ => (.ok r, [.validate url, .request method url] ++ evs)

/-! ### Redirect-validation theorems (C7) -/

/-- A DNS oracle for the concrete examples: `example.com` is public, other
names fail to resolve. -/
def exampleDns : String → Except String String :=
  fun h => if h == "example.com" then .ok "93.184.216.34" else .error "unknown host"

/-! ### UptimeChecker (src/checkers/uptime_checker.py)

`UptimeChecker.check` GETs every configured endpoint through
`self.client.get` — directly, with no `_validate_url` call — and aggregates
status-code, SSL and response-time findings.  The network is an oracle from
the full endpoint URL to an outcome; the SSL inspection result (a socket
probe, not an HTTP request) is part of the response outcome.
-/

/-- The configuration fields `UptimeChecker.check` reads (with the source's
defaults). -/
structure UptimeCfg where
  url : String := "https://inforuta-rce.es/"
  endpoints : List String := ["/"]
  expected_status : List Nat := [200, 301, 302]
  check_ssl : Bool := true
  warning_threshold_ms : Nat := 3000
  critical_threshold_ms : Nat := 10000
deriving DecidableEq, Repr

/-- The `_check_ssl_certificate` outcome the uptime loop reads. -/
structure SslInfo where
  valid : Bool := true
  message : String := ""
deriving DecidableEq, Repr

/-- Network oracle outcome for one uptime endpoint GET. -/
inductive EndpointOutcome
  | resp (status_code : Nat) (total_time_ms : Nat) (ssl : SslInfo)
  | timeoutExc (msg : String)
  | connectExc (msg : String)
  | httpExc (msg : String)
deriving DecidableEq, Repr

/-- The loop state of `UptimeChecker.check` over the endpoint list. -/
structure UptimeAcc where
  all_success : Bool := true
  error_messages : List String := []
  warning_messages : List String := []
  status_code : Option Nat := none
  trace : List Event := []
deriving DecidableEq, Repr

/-- One iteration of the endpoint loop: issue the GET (via
`self.client.get`, so the trace records a request and no guard validation),
then check the status code against the allow-list, the SSL result when
enabled and the URL is HTTPS, and the response time against the thresholds;
httpx exceptions mark the endpoint failed. -/
def uptimeEndpointStep (cfg : UptimeCfg) (env : String → EndpointOutcome)
    (acc : UptimeAcc) (endpoint : String) : UptimeAcc :=
  let full_url := joinUrl cfg.url endpoint
  let trace := acc.trace ++ [.request "get" full_url]
  match env full_url with
  | .resp status_code total_time_ms ssl =>
    let bad := !cfg.expected_status.contains status_code
    let all_success := if bad then false else acc.all_success
    let error_messages :=
      if bad then
        acc.error_messages ++ ["Unexpected status code " ++ toString status_code
          ++ " for " ++ endpoint]
      else acc.error_messages
    let warning_messages :=
      if cfg.check_ssl && strStartsWith full_url "https" && !ssl.valid then
        acc.warning_messages ++ [ssl.message]
      else acc.warning_messages
    let warning_messages :=
      if cfg.critical_threshold_ms < total_time_ms then
        warning_messages ++ ["Critical: Response time " ++ toString total_time_ms
          ++ "ms exceeds " ++ toString cfg.critical_threshold_ms ++ "ms"]
      else if cfg.warning_threshold_ms < total_time_ms then
        warning_messages ++ ["Slow response: " ++ toString total_time_ms
          ++ "ms exceeds " ++ toString cfg.warning_threshold_ms ++ "ms"]
      else warning_messages
    { all_success := all_success, error_messages := error_messages,
      warning_messages := warning_messages, status_code := some status_code,
      trace := trace }
  | .timeoutExc msg =>
    { acc with
        all_success := false,
        error_messages := acc.error_messages
          ++ ["Timeout for " ++ endpoint ++ ": " ++ msg],
        trace := trace }
  | .connectExc msg =>
    { acc with
        all_success := false,
        error_messages := acc.error_messages
          ++ ["Connection error for " ++ endpoint ++ ": " ++ msg],
        trace := trace }
  | .httpExc msg =>
    { acc with
        all_success := false,
        error_messages := acc.error_messages
          ++ ["HTTP error for " ++ endpoint ++ ": " ++ msg],
        trace := trace }

/-- `UptimeChecker.check`: run the endpoint loop and build the result —
FAILURE when any endpoint failed, WARNING when only warnings accumulated,
SUCCESS otherwise; the outer `except` (modelled by `unexpected`) yields an
ERROR result. -/
def uptimeCheck (cfg : UptimeCfg) (env : String → EndpointOutcome)
    (unexpected : Option String) (now : Int) (rtms : Nat) :
    CheckResult × List Event :=
  match unexpected with
  | some msg =>
    ({ check_type := "uptime", timestamp := now, status := .error,
       success := false, response_time_ms := rtms,
       error_message := some ("Unexpected error: " ++ msg) }, [])
  | none =>
    let acc := cfg.endpoints.foldl (uptimeEndpointStep cfg env) {}
    let status :=
      if !acc.all_success then CheckStatus.failure
      else if !acc.warning_messages.isEmpty then CheckStatus.warning
      else CheckStatus.success
    ({ check_type := "uptime", timestamp := now, status := status,
       success := acc.all_success, status_code := acc.status_code,
       response_time_ms := rtms,
       error_message :=
         if acc.error_messages.isEmpty then none
         else some (joinSep "; " acc.error_messages),
       warning_message :=
         if acc.warning_messages.isEmpty then none
         else some (joinSep "; " acc.warning_messages) }, acc.trace)

/-! ### HealthChecker (src/checkers/health_checker.py)

`HealthChecker.check` requires the auth checker's session cookies and
requests the protected endpoint through the SSRF-protected `_make_request`.
-/

/-- The configuration fields `HealthChecker.check` reads (with the source's
defaults). -/
structure HealthCfg where
  enabled : Bool := false
  url : String := "https://inforuta-rce.es/"
  protected_endpoint : String := "/ajax/alertasUsuario.aspx"
  expected_content : List String := []
  warning_threshold_ms : Nat := 5000
  critical_threshold_ms : Nat := 10000
deriving DecidableEq, Repr

/-- `HealthChecker.check`: disabled checks short-circuit to SUCCESS; a
missing session is an ERROR; the protected-endpoint request goes through
`_make_request` (SSRF guard first); 401/403 and other non-200 codes are
FAILURE; a 200 is SUCCESS or WARNING depending on expected content and
response time. -/
def healthCheck (dns : String → Except String String) (cfg : HealthCfg)
    (has_session : Bool) (out : ReqOutcome) (unexpected : Option String)
    (now : Int) (rtms : Nat) : CheckResult × List Event :=
  if !cfg.enabled then
    ({ check_type := "health", timestamp := now, status := .success,
       success := true, response_time_ms := 0 }, [])
  else if !has_session then
    ({ check_type := "health", timestamp := now, status := .error,
       success := false, response_time_ms := rtms,
       error_message := some "No authenticated session available" }, [])
  else
    match unexpected with
    | some msg =>
      ({ check_type := "health", timestamp := now, status := .error,
         success := false, response_time_ms := rtms,
         error_message := some ("Unexpected error: " ++ msg) }, [])
    | none =>
      let health_url := joinUrl cfg.url cfg.protected_endpoint
      let (res, trace) := make_request dns "get" health_url out true
      match res with
      | .error (.ssrf msg) =>
        ({ check_type := "health", timestamp := now, status := .error,
           success := false, response_time_ms := rtms,
           error_message := some ("SSRF protection blocked request: " ++ msg) },
         trace)
      | .error (.timeoutErr msg) =>
        ({ check_type := "health", timestamp := now, status := .timeout,
           success := false, response_time_ms := rtms,
           error_message := some ("Timeout: " ++ msg) }, trace)
      | .error (.httpErr msg) =>
        ({ check_type := "health", timestamp := now, status := .error,
           success := false, response_time_ms := rtms,
           error_message := some ("Unexpected error: " ++ msg) }, trace)
      | .ok r =>
        if r.status_code == 401 || r.status_code == 403 then
          ({ check_type := "health", timestamp := now, status := .failure,
             success := false, status_code := some r.status_code,
             response_time_ms := rtms,
             error_message := some "Session expired or unauthorized" }, trace)
        else if r.status_code != 200 then
          ({ check_type := "health", timestamp := now, status := .failure,
             success := false, status_code := some r.status_code,
             response_time_ms := rtms,
             error_message := some ("Unexpected status code: "
               ++ toString r.status_code) }, trace)
        else
          let content_missing := cfg.expected_content.filter
            (fun c => !(strContains (strLower r.body) (strLower c)))
          let warning_message :=
            if cfg.critical_threshold_ms < rtms then
              some ("Critical: Response time " ++ toString rtms
                ++ "ms exceeds " ++ toString cfg.critical_threshold_ms ++ "ms")
            else if cfg.warning_threshold_ms < rtms then
              some ("Slow response: " ++ toString rtms ++ "ms exceeds "
                ++ toString cfg.warning_threshold_ms ++ "ms")
            else none
          let (status, warning_message) :=
            if !content_missing.isEmpty && !cfg.expected_content.isEmpty then
              (CheckStatus.warning,
               some ("Missing expected content: " ++ joinSep ", " content_missing))
            else if warning_message.isSome then (CheckStatus.warning, warning_message)
            else (CheckStatus.success, warning_message)
          ({ check_type := "health", timestamp := now, status := status,
             success := true, status_code := some r.status_code,
             response_time_ms := rtms,
             warning_message := warning_message }, trace)

/-! ### The monitor cycle (src/monitor.py)

`Monitor.perform_checks` iterates the configured sites; `_perform_site_checks`
runs the site's enabled checkers in order and records each result in the
`StateManager`.  For the circuit-breaker scenario the relevant shape is a
site whose `checks_enabled` is `["uptime"]`; note that `monitor.py` consults
no circuit breaker anywhere before (or after) running a checker — the
`CircuitBreaker` class of src/utils/circuit_breaker.py is never
instantiated by the monitor.
-/

/-- One scheduled cycle of `Monitor.perform_checks` for a single site whose
only enabled check is uptime: create the checker, run it, record the result;
no gate of any kind is consulted first. -/
def monitorCycleUptime (cfg : UptimeCfg) (env : String → EndpointOutcome)
    (site_name : String) (history_size : Nat) (st : ManagerState) (now : Int)
    (rtms : Nat) : ManagerState × CheckResult × List Event :=
  let (result, trace) := uptimeCheck cfg env none now rtms
  let st2 := record_result history_size st result site_name now
  (st2, result, trace)

/-- The manager state after `n` scheduled cycles (cycle `k` runs at time
`k`). -/
def runUptimeCycles (cfg : UptimeCfg) (env : String → EndpointOutcome)
    (site_name : String) (history_size : Nat) : Nat → ManagerState
  | 0 => initialManagerState
  | n + 1 =>
    (monitorCycleUptime cfg env site_name history_size
      (runUptimeCycles cfg env site_name history_size n) n 100).fst

/-- The configuration of the claimed scenario: `expected_status = [200]`. -/
def scenarioCfg : UptimeCfg :=
  { url := "https://example.com", endpoints := ["/"],
    expected_status := [200], check_ssl := false }

/-- A network in which every endpoint answers 503. -/
def env503 : String → EndpointOutcome :=
  fun _ => .resp 503 100 {}

/-- The data-model invariant of `CheckResult` claimed by the spec:
`status == SUCCESS` implies `success`, and a FAILURE/ERROR/TIMEOUT status
implies `¬success`. -/
def statusCoherent (r : CheckResult) : Prop :=
  (r.status = .success → r.success = true)
  ∧ ((r.status = .failure ∨ r.status = .error ∨ r.status = .timeout) →
      r.success = false)

/-- The failing input of C1: an uptime check pointed at localhost. -/
def c1Cfg : UptimeCfg :=
  { url := "http://127.0.0.1", endpoints := ["/"], expected_status := [200],
    check_ssl := false }

/-- The network for the C1 failing input: connections to it are refused. -/
def c1Env : String → EndpointOutcome :=
  fun _ => .connectExc "Connection refused"

/-! ### Theorems -/

/-- C4: the notification decision of `should_notify` (for an enabled notifier)
notifies exactly when the spec's classification is FirstFailure, Downtime,
Recovery or NewWarning, i.e. anything but Stable; the classification itself
is the spec's case analysis (`classifySpec`). -/
theorem should_notify_matches_spec_classification :
    ∀ (current : CheckResult) (previous : Option CheckResult),
      should_notify true current previous =
        (classifySpec current previous != Classification.Stable) := by
  intro current previous
  rcases current with ⟨ct, ts, st, su, sc, rt, em, wm⟩
  cases previous with
  | none =>
    cases st <;> simp [should_notify, classifySpec, CheckResult.is_failure]
  | some p =>
    rcases p with ⟨ct2, ts2, st2, su2, sc2, rt2, em2, wm2⟩
    cases st <;> cases st2 <;>
      simp [should_notify, classifySpec, CheckResult.is_failure,
        CheckResult.is_success, CheckResult.is_warning]

/-- C3: over the full `AuthChecker.check` path that reaches the body scan
(check enabled, credentials configured, login page loads with 200), a body
containing both a success indicator and a fixed failure indicator yields a
failure result, and a body containing neither yields a failure result with
the "unclear" error message; an ambiguous response is never a success. -/
theorem auth_failure_indicators_win_and_ambiguous_is_failure
    (success_indicators : List String) (username password login_url pageBody
      body : String) (cookies : Nat) (now : Int) (rtms : Nat)
    (hu : username ≠ "") (hp : password ≠ "") :
    ((∃ ind ∈ success_indicators,
        strContains (strLower body) (strLower ind) = true) →
      (∃ ind ∈ failure_indicators, strContains (strLower body) ind = true) →
      ((authCheck true username password success_indicators login_url
          (.ok 200 pageBody body cookies) none now rtms).fst.status =
            CheckStatus.failure ∧
        (authCheck true username password success_indicators login_url
          (.ok 200 pageBody body cookies) none now rtms).fst.success = false))
    ∧ ((∀ ind ∈ success_indicators,
          strContains (strLower body) (strLower ind) = false) →
        (∀ ind ∈ failure_indicators, strContains (strLower body) ind = false) →
        ((authCheck true username password success_indicators login_url
            (.ok 200 pageBody body cookies) none now rtms).fst.status =
              CheckStatus.failure ∧
          (authCheck true username password success_indicators login_url
            (.ok 200 pageBody body cookies) none now rtms).fst.success = false ∧
          (authCheck true username password success_indicators login_url
            (.ok 200 pageBody body cookies) none now rtms).fst.error_message =
              some "Login result unclear - no success indicators found")) := by
  have hne : (username == "" || password == "") = false := by
    simp [hu, hp]
  constructor
  · intro hsucc hfail
    obtain ⟨i, hi, hci⟩ := hsucc
    obtain ⟨f, hf, hcf⟩ := hfail
    have hmem : f ∈ failure_indicators.filter
        (fun ind => strContains (strLower body) ind) :=
      List.mem_filter.mpr ⟨hf, hcf⟩
    have hffne : (failure_indicators.filter
        (fun ind => strContains (strLower body) ind)).isEmpty = false := by
      rw [Bool.eq_false_iff]
      intro h
      rw [List.isEmpty_iff] at h
      rw [h] at hmem
      exact absurd hmem (List.not_mem_nil f)
    simp only [authCheck, hne, Bool.false_eq_true, if_false, if_neg,
      perform_login, loginDecision]
    simp [hffne]
  · intro hsucc hfail
    have hse : (success_indicators.filter
        (fun ind => strContains (strLower body) (strLower ind))).isEmpty = true := by
      rw [List.isEmpty_iff, List.filter_eq_nil_iff]
      intro a ha
      simp [hsucc a ha]
    have hfe : (failure_indicators.filter
        (fun ind => strContains (strLower body) ind)).isEmpty = true := by
      rw [List.isEmpty_iff, List.filter_eq_nil_iff]
      intro a ha
      simp [hfail a ha]
    simp only [authCheck, hne, Bool.false_eq_true, if_false, if_neg,
      perform_login, loginDecision]
    simp [hse, hfe]

/-- Witness for C3: a concrete body containing both the configured success
indicator "dashboard" and the fixed failure indicator "error" is reported as
a failure, and a body containing neither is reported as the unclear failure. -/
theorem auth_failure_indicators_win_witness :
    ((authCheck true "u" "p" ["dashboard"] "https://example.com/login"
        (.ok 200 "" "Dashboard error" 1) none 0 5).fst.status =
          CheckStatus.failure ∧
      (authCheck true "u" "p" ["dashboard"] "https://example.com/login"
        (.ok 200 "" "Dashboard error" 1) none 0 5).fst.success = false)
    ∧ (authCheck true "u" "p" ["dashboard"] "https://example.com/login"
        (.ok 200 "" "hello world" 1) none 0 5).fst.error_message =
          some "Login result unclear - no success indicators found" := by
  refine ⟨?_, ?_⟩
  · exact (auth_failure_indicators_win_and_ambiguous_is_failure ["dashboard"]
      "u" "p" "https://example.com/login" "" "Dashboard error" 1 0 5
      (by decide) (by decide)).1
      ⟨"dashboard", by decide, by decide⟩ ⟨"error", by decide, by decide⟩
  · exact ((auth_failure_indicators_win_and_ambiguous_is_failure ["dashboard"]
      "u" "p" "https://example.com/login" "" "hello world" 1 0 5
      (by decide) (by decide)).2
      (by decide) (by decide)).2.2

/-- Invariant transfer through `_on_failure`: the failure count only grows
and the last failure time is recorded. -/
theorem on_failure_inv (cb : CircuitBreaker) (now : Int)
    (h : cb.state ≠ .CLOSED → cb.failure_threshold ≤ cb.failure_count) :
    ((cb.on_failure now).state ≠ .CLOSED →
      (cb.on_failure now).failure_threshold ≤ (cb.on_failure now).failure_count)
    ∧ ((cb.on_failure now).state = .OPEN →
        (cb.on_failure now).last_failure_time ≠ none) := by
  by_cases hth : cb.failure_threshold ≤ cb.failure_count + 1
  · exact ⟨fun _ => hth, fun _ => by simp [CircuitBreaker.on_failure]⟩
  · have hst : (cb.on_failure now).state = cb.state := by
      simp [CircuitBreaker.on_failure, hth]
    constructor
    · intro hne
      rw [hst] at hne
      exact Nat.le_succ_of_le (h hne)
    · intro _
      simp [CircuitBreaker.on_failure]

/-- Reachability invariant: a breaker that is not CLOSED has accumulated at
least `failure_threshold` failures (the count is not reset when entering OPEN
or HALF_OPEN), and an OPEN breaker has a recorded last failure time. -/
theorem breaker_invariant (f : Nat) (t : Int) (cb : CircuitBreaker)
    (h : BreakerReachable f t cb) :
    (cb.state ≠ .CLOSED → cb.failure_threshold ≤ cb.failure_count)
    ∧ (cb.state = .OPEN → cb.last_failure_time ≠ none) := by
  induction h with
  | init => simp [initBreaker]
  | reset cb _ _ => simp [CircuitBreaker.reset]
  | step cb now succeeds _ ih =>
    by_cases hro : (cb.state == CircuitState.OPEN
        && !cb.should_attempt_reset now) = true
    · simp only [CircuitBreaker.call, hro, if_pos]
      exact ih
    · rw [CircuitBreaker.call, if_neg (by simp [hro])]
      have h1 : (if cb.state == CircuitState.OPEN then
          { cb with state := CircuitState.HALF_OPEN } else cb).state ≠ .CLOSED →
          (if cb.state == CircuitState.OPEN then
            { cb with state := CircuitState.HALF_OPEN } else cb).failure_threshold ≤
          (if cb.state == CircuitState.OPEN then
            { cb with state := CircuitState.HALF_OPEN } else cb).failure_count := by
        by_cases hop : (cb.state == CircuitState.OPEN) = true
        · simp only [hop, if_pos, if_true]
          intro _
          exact ih.1 (by simp [show cb.state = CircuitState.OPEN from by
            simpa using hop])
        · simp only [hop, Bool.false_eq_true, if_false, if_neg]
          exact ih.1
      cases succeeds
      · simpa using on_failure_inv _ now h1
      · simp [CircuitBreaker.on_success]

/-- C5: the transition rules of the circuit breaker.  A recorded failure
increments `failure_count`; a failure that brings the count to the threshold
moves a CLOSED breaker to OPEN and records `last_failure_time`; a call while
OPEN before `recovery_timeout` seconds have elapsed since the last failure is
refused with the wrapped function not invoked and the breaker unchanged; a
call while OPEN after the timeout has elapsed is admitted in HALF_OPEN; a
successful call in HALF_OPEN moves to CLOSED with `failure_count = 0`; and a
failing call in a reachable HALF_OPEN state returns the breaker to OPEN. -/
theorem circuit_breaker_transitions (f : Nat) (t : Int) (cb : CircuitBreaker)
    (hr : BreakerReachable f t cb) (now tf : Int) (b : Bool) :
    ((cb.on_failure now).failure_count = cb.failure_count + 1)
    ∧ (cb.state = .CLOSED → cb.failure_threshold ≤ cb.failure_count + 1 →
        ((cb.call now false).snd.state = .OPEN ∧
          (cb.call now false).snd.last_failure_time = some now))
    ∧ (cb.state = .OPEN → cb.last_failure_time = some tf →
        now - tf < cb.recovery_timeout → cb.call now b = (.refused, cb))
    ∧ (cb.state = .OPEN → cb.should_attempt_reset now = true →
        (cb.call now b).fst = .invoked .HALF_OPEN b)
    ∧ (cb.state = .HALF_OPEN →
        ((cb.call now true).snd.state = .CLOSED ∧
          (cb.call now true).snd.failure_count = 0))
    ∧ (cb.state = .HALF_OPEN → (cb.call now false).snd.state = .OPEN) := by
  refine ⟨rfl, ?_, ?_, ?_, ?_, ?_⟩
  · intro hcl hth
    have hno : (cb.state == CircuitState.OPEN
        && !cb.should_attempt_reset now) = false := by
      simp [hcl]
    have hnop : (cb.state == CircuitState.OPEN) = false := by simp [hcl]
    simp [CircuitBreaker.call, hno, hnop, CircuitBreaker.on_failure, hth]
  · intro hop hlf hlt
    have hres : cb.should_attempt_reset now = false := by
      simp [CircuitBreaker.should_attempt_reset, hlf]
      omega
    simp [CircuitBreaker.call, hop, hres]
  · intro hop hres
    cases b <;>
      simp [CircuitBreaker.call, hop, hres, CircuitBreaker.on_success,
        CircuitBreaker.on_failure]
  · intro hho
    have hcond : (cb.state == CircuitState.OPEN
        && !cb.should_attempt_reset now) = false := by
      simp [hho]
    have hnop : (cb.state == CircuitState.OPEN) = false := by simp [hho]
    simp [CircuitBreaker.call, hcond, hnop, CircuitBreaker.on_success]
  · intro hho
    have hcond : (cb.state == CircuitState.OPEN
        && !cb.should_attempt_reset now) = false := by
      simp [hho]
    have hnop : (cb.state == CircuitState.OPEN) = false := by simp [hho]
    have hge : cb.failure_threshold ≤ cb.failure_count :=
      (breaker_invariant f t cb hr).1 (by simp [hho])
    simp [CircuitBreaker.call, hcond, hnop, CircuitBreaker.on_failure,
      Nat.le_succ_of_le hge]

/-- Witness for C5 at a concrete breaker with threshold 1 and timeout 5: one
failure opens the breaker at time 0; a call at time 3 is refused; a call at
time 7 is admitted in HALF_OPEN and its success closes the breaker with the
count reset to 0. -/
theorem circuit_breaker_transitions_witness :
    (((initBreaker 1 5).call 0 false).snd.state = .OPEN
      ∧ ((initBreaker 1 5).call 0 false).snd.last_failure_time = some 0)
    ∧ ((((initBreaker 1 5).call 0 false).snd.call 3 true) =
        (.refused, ((initBreaker 1 5).call 0 false).snd))
    ∧ ((((initBreaker 1 5).call 0 false).snd.call 7 true).fst =
        .invoked .HALF_OPEN true) := by
  refine ⟨?_, ?_, ?_⟩
  · exact (circuit_breaker_transitions 1 5 (initBreaker 1 5)
      BreakerReachable.init 0 0 false).2.1 (by decide) (by decide)
  · exact (circuit_breaker_transitions 1 5 ((initBreaker 1 5).call 0 false).snd
      (BreakerReachable.step _ 0 false BreakerReachable.init) 3 0
      true).2.2.1 (by decide) (by decide) (by decide)
  · exact (circuit_breaker_transitions 1 5 ((initBreaker 1 5).call 0 false).snd
      (BreakerReachable.step _ 0 false BreakerReachable.init) 7 0
      true).2.2.2.1 (by decide) (by decide)

/-! ### StateManager theorems -/

/-- Reading a freshly written site entry. -/
theorem siteStateOf_mapSet (st : ManagerState) (ss : SiteState)
    (site site2 : String) (g : GlobalStats) :
    siteStateOf { st with sites := mapSet st.sites site ss, globalStats := g }
        site2 = if site2 == site then ss else siteStateOf st site2 := by
  by_cases h : (site2 == site) = true <;> simp [siteStateOf, mapSet, h]

/-- For a positive bound the Python trim is exactly "keep the last
`history_size` entries". -/
theorem pyTrim_eq_drop (history_size : Nat) (hs : 1 ≤ history_size)
    (h : List CheckResult) :
    pyTrim history_size h = h.drop (h.length - history_size) := by
  unfold pyTrim
  by_cases hlt : history_size < h.length
  · have : (history_size == 0) = false := by
      simp
      omega
    simp [hlt, this]
  · have : h.length - history_size = 0 := by omega
    simp [hlt, this]

/-- The history written by `record_result` for the recorded check type is the
trimmed extension of the previous history; other check types and other sites
are untouched. -/
theorem histOf_record (history_size : Nat) (st : ManagerState)
    (r : CheckResult) (site site2 ctype : String) (now : Int) :
    histOf (record_result history_size st r site now) site2 ctype =
      if site2 == site && ctype == r.check_type then
        pyTrim history_size (histOf st site r.check_type ++ [r])
      else histOf st site2 ctype := by
  by_cases hsite : (site2 == site) = true
  · have hsite2 : site2 = site := by simpa using hsite
    subst hsite2
    by_cases hct : (ctype == r.check_type) = true
    · have hct2 : ctype = r.check_type := by simpa using hct
      subst hct2
      by_cases hf : r.is_failure = true <;>
        simp [record_result, histOf, siteStateOf_mapSet, hf, mapSet,
          siteStateOf]
    · by_cases hf : r.is_failure = true <;>
        simp [record_result, histOf, siteStateOf_mapSet, hf, mapSet, hct,
          siteStateOf]
  · by_cases hf : r.is_failure = true <;>
      simp [record_result, histOf, siteStateOf_mapSet, hf, mapSet, hsite,
        siteStateOf]

/-- C6 (amended with `1 ≤ history_size`): after any sequence of
`record_result` calls every stored history has length at most the configured
`history_size`; each call replaces the recorded check type's history by the
appended list with the oldest entries dropped; and `get_history` returns a
suffix of the stored history (the most recent entries in stored order, most
recent last), of length `min count length` for a positive `count`. -/
theorem state_history_bounded (history_size : Nat) (hs : 1 ≤ history_size)
    (st : ManagerState) (hr : RecordReachable history_size st) :
    (∀ site ctype, (histOf st site ctype).length ≤ history_size)
    ∧ (∀ (r : CheckResult) (site : String) (now : Int),
        histOf (record_result history_size st r site now) site r.check_type =
          (histOf st site r.check_type ++ [r]).drop
            ((histOf st site r.check_type).length + 1 - history_size))
    ∧ (∀ ctype count site,
        (get_history st ctype count site).IsSuffix (histOf st site ctype))
    ∧ (∀ ctype count site, 1 ≤ count →
        (get_history st ctype count site).length =
          min count (histOf st site ctype).length) := by
  refine ⟨?_, ?_, ?_, ?_⟩
  · induction hr with
    | init => intro site ctype; simp [histOf, initialManagerState, siteStateOf, defaultSiteState]
    | record st r site now _ ih =>
      intro site2 ctype
      rw [histOf_record]
      by_cases hcond : (site2 == site && ctype == r.check_type) = true
      · rw [if_pos hcond, pyTrim_eq_drop history_size hs]
        rw [List.length_drop]
        omega
      · rw [if_neg hcond]
        exact ih site2 ctype
  · intro r site now
    rw [histOf_record, if_pos (by simp), pyTrim_eq_drop history_size hs]
    simp
  · intro ctype count site
    unfold get_history histOf
    cases h : (siteStateOf st site).history ctype with
    | none => simp
    | some history =>
      by_cases he : history.isEmpty
      · simp [he]
      · by_cases hc : (count == 0) = true <;>
          simp [he, hc, List.drop_suffix]
  · intro ctype count site hcount
    unfold get_history histOf
    cases h : (siteStateOf st site).history ctype with
    | none => simp
    | some history =>
      by_cases he : history.isEmpty = true
      · rw [List.isEmpty_iff] at he
        simp [he]
      · have hc : (count == 0) = false := by
          simp
          omega
        simp only [he, hc, Bool.false_eq_true, if_false, if_neg,
          List.length_drop, Option.getD_some]
        omega

/-- Witness for C6: with `history_size = 1`, after two `record_result` calls
the stored uptime history for site "s" has at most one entry. -/
theorem state_history_bounded_witness :
    (histOf (record_result 1 (record_result 1 initialManagerState rFail "s" 0)
        rOk "s" 1) "s" "uptime").length ≤ 1 :=
  (state_history_bounded 1 (by decide)
    (record_result 1 (record_result 1 initialManagerState rFail "s" 0) rOk "s" 1)
    (RecordReachable.record _ rOk "s" 1
      (RecordReachable.record _ rFail "s" 0 RecordReachable.init))).1 "s" "uptime"

/-- Counterexample for C6 as stated: with the configured `history_size = 0`
a single `record_result` leaves a stored history of length 1, exceeding the
bound — Python's `history[-0:]` slice returns the whole list, so a zero
bound never trims. -/
theorem state_history_bound_fails_at_zero :
    ¬ ((histOf (record_result 0 initialManagerState rFail "s" 0)
        "s" "uptime").length ≤ 0) := by
  decide

/-- C9: a failing persistence step makes `save_state` return `False` instead
of raising, `record_result` still completes, and the in-memory state — which
is independent of the filesystem outcome — contains the newly recorded
result as the site's last result for its check type. -/
theorem save_failure_keeps_memory_state (history_size : Nat)
    (st : ManagerState) (r : CheckResult) (site : String) (now : Int)
    (env : SaveEnv) (h : env ≠ SaveEnv.ok) :
    (record_result_io history_size st r site now env).snd = false
    ∧ (record_result_io history_size st r site now env).fst =
        (record_result_io history_size st r site now SaveEnv.ok).fst
    ∧ get_last_result (record_result_io history_size st r site now env).fst
        r.check_type site = some r := by
  refine ⟨?_, rfl, ?_⟩
  · cases env <;> simp_all [record_result_io, save_state, saveAttempt]
  · by_cases hf : r.is_failure = true <;>
      simp [record_result_io, record_result, get_last_result, siteStateOf,
        mapSet, hf]

/-- Witness for C9 at a concrete state: a write failure yields `False` but
the last recorded uptime result for site "s" is the new result. -/
theorem save_failure_keeps_memory_state_witness :
    (record_result_io 100 initialManagerState rFail "s" 0
        (SaveEnv.writeFail "disk full")).snd = false
    ∧ get_last_result (record_result_io 100 initialManagerState rFail "s" 0
        (SaveEnv.writeFail "disk full")).fst "uptime" "s" = some rFail := by
  have h := save_failure_keeps_memory_state 100 initialManagerState rFail "s" 0
    (SaveEnv.writeFail "disk full") (by simp)
  exact ⟨h.1, h.2.2⟩

/-- C10: in every state reachable through the `StateManager` operations, the
persisted `circuit_breaker.is_open` of every site is `False`; moreover
`record_result` increments the persisted `failure_count` on a failure result
and resets it to 0 on any other result. -/
theorem persisted_breaker_never_open (st : ManagerState) (h : SMOps st) :
    (∀ site, (siteStateOf st site).circuit_breaker.is_open = false)
    ∧ (∀ (history_size : Nat) (r : CheckResult) (site : String) (now : Int),
        (siteStateOf (record_result history_size st r site now) site
            ).circuit_breaker.failure_count =
          if r.is_failure then
            (siteStateOf st site).circuit_breaker.failure_count + 1
          else 0) := by
  constructor
  · induction h with
    | init => intro site; simp [initialManagerState, siteStateOf, defaultSiteState]
    | record st history_size r site now _ ih =>
      intro site2
      by_cases hf : r.is_failure = true <;>
        · simp only [record_result, hf, Bool.false_eq_true, if_true, if_false,
            if_pos, if_neg, siteStateOf_mapSet]
          by_cases hsite : (site2 == site) = true <;>
            simp [hsite, ih site2, ih site]
    | migrate st old _ ih =>
      intro site2
      simp only [migrate_old_state, siteStateOf_mapSet]
      by_cases hsite : (site2 == "InfoRuta RCE") = true <;>
        simp [hsite, ih site2]
    | clear st ct site _ ih =>
      intro site2
      cases ct with
      | none =>
        simp only [clear_history, siteStateOf_mapSet]
        by_cases hsite : (site2 == site) = true <;>
          simp [hsite, ih site2, ih site]
      | some c =>
        cases hh : (siteStateOf st site).history c <;>
          · simp only [clear_history, hh, siteStateOf_mapSet]
            by_cases hsite : (site2 == site) = true <;>
              simp [hsite, ih site2, ih site]
    | touch st site _ ih =>
      intro site2
      cases hs : st.sites site with
      | some s => simpa [touch_site, hs] using ih site2
      | none =>
        simp only [touch_site, hs, siteStateOf_mapSet]
        by_cases hsite : (site2 == site) = true <;>
          simp [hsite, defaultSiteState, ih site2]
  · intro history_size r site now
    by_cases hf : r.is_failure = true <;>
      simp [record_result, hf, siteStateOf_mapSet, siteStateOf, mapSet]

/-- Witness for C10 at a concrete reachable state: after recording a failure
and migrating an old file, every site's persisted breaker is closed. -/
theorem persisted_breaker_never_open_witness :
    (siteStateOf (migrate_old_state
        (record_result 100 initialManagerState rFail "s" 0) {})
      "InfoRuta RCE").circuit_breaker.is_open = false :=
  (persisted_breaker_never_open _
    (SMOps.migrate _ {} (SMOps.record _ 100 rFail "s" 0 SMOps.init))).1
    "InfoRuta RCE"

/-- Computation lemma: `isOk` of an error. -/
theorem isOk_error (e : String) : (Except.error e : Except String Unit).isOk = false := rfl

/-- Computation lemma: `isOk` of a success. -/
theorem isOk_ok (u : Unit) : (Except.ok u : Except String Unit).isOk = true := rfl

/-- The redirect walk succeeds exactly when every resolved redirect target
in the chain passes the SSRF guard. -/
theorem processHistory_ok_iff (dns : String → Except String String)
    (hops : List Hop) : ∀ url,
    ((processHistory dns url hops).fst = .ok () ↔
      ∀ u ∈ resolvedChain url hops, (validate_url dns u true).isOk = true) := by
  induction hops with
  | nil =>
    intro url
    simp [processHistory, resolvedChain]
  | cons hop rest ih =>
    intro url
    obtain ⟨hrb, hlocOpt⟩ := hop
    cases hrb with
    | false =>
      simpa [processHistory, resolvedChain] using ih url
    | true =>
      cases hlocOpt with
      | none => simpa [processHistory, resolvedChain] using ih url
      | some loc =>
        cases he : loc.isEmpty with
        | true => simpa [processHistory, resolvedChain, he] using ih url
        | false =>
          have hvr : validate_redirect_url dns loc url =
              validate_url dns
                (if (urlparseModel loc).scheme == "" then urljoinModel url loc
                 else loc) true := by
            rw [validate_redirect_url, if_neg (by simp [he])]
          cases hv : validate_url dns
              (if (urlparseModel loc).scheme == "" then urljoinModel url loc
               else loc) true with
          | error e =>
            have hvre : validate_redirect_url dns loc url = .error e := by
              rw [hvr, hv]
            simp only [processHistory, resolvedChain, he, Bool.not_false,
              if_true, if_pos, hvre, List.mem_cons, forall_eq_or_imp]
            simp only [hv, isOk_error]
            simp
          | ok uu =>
            have hvro : validate_redirect_url dns loc url = .ok uu := by
              rw [hvr, hv]
            simp only [processHistory, resolvedChain, he, Bool.not_false,
              if_true, if_pos, hvro, List.mem_cons, forall_eq_or_imp]
            rw [ih (if (urlparseModel loc).scheme == "" then
              urljoinModel url loc else loc)]
            simp only [hv, isOk_ok]
            simp

/-- C7: every redirect hop's `Location` is re-validated against the SSRF
guard — the walk succeeds iff every resolved target validates; a relative
`Location` is resolved against the current hop's URL before validation; an
SSRF violation on any hop makes the whole `_make_request` fail with an
`SSRFProtectionError`; and, concretely, a chain from the public
`https://example.com/` redirecting to `http://192.168.1.1/admin` fails with
the private-address violation even though the origin URL is public. -/
theorem redirect_hops_revalidated (dns : String → Except String String)
    (url : String) (hops : List Hop) :
    ((processHistory dns url hops).fst = .ok () ↔
      ∀ u ∈ resolvedChain url hops, (validate_url dns u true).isOk = true)
    ∧ (∀ (loc : String) (rest : List Hop), loc ≠ "" →
        (urlparseModel loc).scheme = "" →
        resolvedChain url ({ is_redirect := true, location := some loc } :: rest)
          = urljoinModel url loc :: resolvedChain (urljoinModel url loc) rest)
    ∧ (∀ (method : String) (r : HttpResponse),
        (∃ u ∈ resolvedChain url r.history,
            (validate_url dns u true).isOk = false) →
        ∃ m, (make_request dns method url (.resp r) true).fst =
          .error (.ssrf m))
    ∧ ((make_request exampleDns "get" "https://example.com/"
          (.resp { status_code := 200, body := "",
                   history := [{ is_redirect := true,
                                 location := some "http://192.168.1.1/admin" }] })
          true).fst =
        .error (.ssrf "Private IP addresses are not allowed: 192.168.1.1")) := by
  refine ⟨processHistory_ok_iff dns hops url, ?_, ?_, ?_⟩
  · intro loc rest hne hsch
    have hemp : loc.isEmpty = false := by
      cases hl : loc.isEmpty
      · rfl
      · exact absurd (by simpa [String.isEmpty_iff] using hl) hne
    simp [resolvedChain, hemp, hsch]
  · intro method r hex
    obtain ⟨u, hu, hfail⟩ := hex
    cases hv : validate_url dns url true with
    | error e => exact ⟨e, by simp [make_request, hv]⟩
    | ok _ =>
      cases hp : (processHistory dns url r.history).fst with
      | error e =>
        refine ⟨e, ?_⟩
        rcases hph : processHistory dns url r.history with ⟨res, evs⟩
        rw [hph] at hp
        simp only at hp
        subst hp
        simp [make_request, hv, hph]
      | ok _ =>
        have := (processHistory_ok_iff dns r.history url).mp hp u hu
        rw [hfail] at this
        exact absurd this (by simp)
  · rfl

/-- Witness for C7: a chain from public `https://example.com/` through the
relative location `/admin` and then to `http://10.0.0.1/` makes the request
fail with an SSRF error. -/
theorem redirect_hops_revalidated_witness :
    ∃ m, (make_request exampleDns "get" "https://example.com/"
      (.resp { status_code := 200, body := "",
               history := [{ is_redirect := true, location := some "/admin" },
                           { is_redirect := true,
                             location := some "http://10.0.0.1/" }] })
      true).fst = .error (.ssrf m) :=
  (redirect_hops_revalidated exampleDns "https://example.com/" []).2.2.1 "get"
    { status_code := 200, body := "",
      history := [{ is_redirect := true, location := some "/admin" },
                  { is_redirect := true, location := some "http://10.0.0.1/" }] }
    ⟨"http://10.0.0.1/", by decide, by decide⟩

/-! ### Checker theorems (C1, C2, C8) -/

/-- Each endpoint iteration appends exactly one client GET to the trace —
and never a guard validation. -/
theorem uptimeStep_trace (cfg : UptimeCfg) (env : String → EndpointOutcome)
    (acc : UptimeAcc) (ep : String) :
    (uptimeEndpointStep cfg env acc ep).trace =
      acc.trace ++ [.request "get" (joinUrl cfg.url ep)] := by
  unfold uptimeEndpointStep
  cases h : env (joinUrl cfg.url ep) <;> simp [h]

/-- A request already in the trace survives the rest of the endpoint loop. -/
theorem uptimeFold_trace_any (cfg : UptimeCfg) (env : String → EndpointOutcome) :
    ∀ (eps : List String) (acc : UptimeAcc),
      acc.trace.any Event.isRequest = true →
      ((eps.foldl (uptimeEndpointStep cfg env) acc).trace.any Event.isRequest)
        = true := by
  intro eps
  induction eps with
  | nil => intro acc h; simpa using h
  | cons e rest ih =>
    intro acc h
    simp only [List.foldl_cons]
    exact ih _ (by rw [uptimeStep_trace]; simp [List.any_append, h])

/-- An uptime check over a non-empty endpoint list always issues at least
one HTTP request (there is no breaker gate and no guard veto in its path). -/
theorem uptimeCheck_issues_request (cfg : UptimeCfg)
    (env : String → EndpointOutcome) (now : Int) (rtms : Nat)
    (h : cfg.endpoints ≠ []) :
    ((uptimeCheck cfg env none now rtms).snd.any Event.isRequest) = true := by
  obtain ⟨e, eps, heq⟩ := List.exists_cons_of_ne_nil h
  show ((cfg.endpoints.foldl (uptimeEndpointStep cfg env) {}).trace.any
    Event.isRequest) = true
  rw [heq, List.foldl_cons]
  exact uptimeFold_trace_any cfg env eps _
    (by rw [uptimeStep_trace]; simp [Event.isRequest])

/-- C1 (as a record of the divergence): on the repo's own failing input — an
uptime checker configured for `http://127.0.0.1` — `UptimeChecker.check`
issues the GET through `self.client` with no `_validate_url` call (the trace
holds one request and no validation event) and reports a connection-error
FAILURE, even though the SSRF guard rejects that URL; the health checker, by
contrast, validates before requesting. -/
theorem uptime_check_bypasses_ssrf_guard :
    ((uptimeCheck c1Cfg c1Env none 0 12).snd =
      [.request "get" "http://127.0.0.1/"])
    ∧ ((uptimeCheck c1Cfg c1Env none 0 12).snd.all
        (fun e => !e.isValidate) = true)
    ∧ (uptimeCheck c1Cfg c1Env none 0 12).fst.status = CheckStatus.failure
    ∧ (uptimeCheck c1Cfg c1Env none 0 12).fst.error_message =
        some "Connection error for /: Connection refused"
    ∧ (validate_url exampleDns "http://127.0.0.1/" true).isOk = false
    ∧ ((authCheck true "u" "p" ["ok"] "http://127.0.0.1/" (.ok 200 "" "" 0)
        none 0 5).snd.all (fun e => !e.isValidate) = true)
    ∧ ((authCheck true "u" "p" ["ok"] "http://127.0.0.1/" (.ok 200 "" "" 0)
        none 0 5).snd.any Event.isRequest = true)
    ∧ ((healthCheck exampleDns { enabled := true, url := "http://127.0.0.1" }
        true (.resp { status_code := 200, body := "" }) none 0 5).snd.any
          Event.isValidate = true) := by
  refine ⟨rfl, by decide, rfl, rfl, by decide, by decide, by decide, by decide⟩

/-- C8: every `CheckResult` constructed by `UptimeChecker.check`,
`AuthChecker.check` or `HealthChecker.check` — over every configuration and
network outcome — satisfies the data-model invariant `statusCoherent`. -/
theorem check_results_coherent :
    (∀ (cfg : UptimeCfg) (env : String → EndpointOutcome)
        (unexpected : Option String) (now : Int) (rtms : Nat),
      statusCoherent (uptimeCheck cfg env unexpected now rtms).fst)
    ∧ (∀ (enabled : Bool) (username password : String)
        (success_indicators : List String) (login_url : String)
        (http : AuthHttp) (unexpected : Option String) (now : Int) (rtms : Nat),
      statusCoherent (authCheck enabled username password success_indicators
        login_url http unexpected now rtms).fst)
    ∧ (∀ (dns : String → Except String String) (cfg : HealthCfg)
        (has_session : Bool) (out : ReqOutcome) (unexpected : Option String)
        (now : Int) (rtms : Nat),
      statusCoherent (healthCheck dns cfg has_session out unexpected
        now rtms).fst) := by
  refine ⟨?_, ?_, ?_⟩
  · intro cfg env unexpected now rtms
    cases unexpected with
    | some msg => simp [uptimeCheck, statusCoherent]
    | none =>
      by_cases hA : (cfg.endpoints.foldl (uptimeEndpointStep cfg env)
          {}).all_success = true <;>
        by_cases hW : (cfg.endpoints.foldl (uptimeEndpointStep cfg env)
            {}).warning_messages.isEmpty = true <;>
          simp [uptimeCheck, statusCoherent, hA, hW]
  · intro enabled username password si login_url http unexpected now rtms
    by_cases he : enabled = true
    case neg => simp [authCheck, he, statusCoherent]
    case pos =>
      by_cases hc : (username == "" || password == "") = true
      · simp [authCheck, he, hc, statusCoherent]
      · cases unexpected with
        | some msg => simp [authCheck, he, hc, statusCoherent]
        | none =>
          rcases hpl : perform_login si login_url http with ⟨lr, tr⟩
          by_cases hs : lr.success = true <;>
            simp [authCheck, he, hc, hpl, hs, statusCoherent]
  · intro dns cfg has_session out unexpected now rtms
    by_cases he : cfg.enabled = true
    case neg => simp [healthCheck, he, statusCoherent]
    case pos =>
      by_cases hse : has_session = true
      case neg => simp [healthCheck, he, hse, statusCoherent]
      case pos =>
        cases unexpected with
        | some msg => simp [healthCheck, he, hse, statusCoherent]
        | none =>
          rcases hmr : make_request dns "get"
              (joinUrl cfg.url cfg.protected_endpoint) out true with ⟨res, tr⟩
          cases res with
          | error err =>
            cases err <;> simp [healthCheck, he, hse, hmr, statusCoherent]
          | ok r =>
            by_cases h401 : (r.status_code == 401 || r.status_code == 403) = true
            · simp [healthCheck, he, hse, hmr, h401, statusCoherent]
            · by_cases h200 : (r.status_code != 200) = true
              · simp [healthCheck, he, hse, hmr, h401, h200, statusCoherent]
              · by_cases hcm : (!(cfg.expected_content.filter
                    (fun c => !(strContains (strLower r.body) (strLower c)))
                    ).isEmpty && !cfg.expected_content.isEmpty) = true <;>
                  by_cases hwm : (if cfg.critical_threshold_ms < rtms then
                        some ("Critical: Response time " ++ toString rtms
                          ++ "ms exceeds "
                          ++ toString cfg.critical_threshold_ms ++ "ms")
                      else if cfg.warning_threshold_ms < rtms then
                        some ("Slow response: " ++ toString rtms
                          ++ "ms exceeds "
                          ++ toString cfg.warning_threshold_ms ++ "ms")
                      else none : Option String).isSome = true <;>
                    simp [healthCheck, he, hse, hmr, h401, h200, hcm, hwm,
                      statusCoherent]

/-- Witness for C8: the uptime check of the 503 scenario produces a FAILURE
result whose `success` flag is false, by the invariant. -/
theorem check_results_coherent_witness :
    (uptimeCheck scenarioCfg env503 none 3 100).fst.success = false :=
  (check_results_coherent.1 scenarioCfg env503 none 3 100).2
    (Or.inl (by decide))

/-- Counterexample for C2: in the claimed scenario (expected status `[200]`,
endpoint answering 503, three failing cycles already recorded) the fourth
scheduled cycle still issues an HTTP call — and the persisted breaker state
never reports open, because `monitor.py` consults no circuit breaker. -/
theorem fourth_cycle_still_issues_request :
    ((monitorCycleUptime scenarioCfg env503 "site" 100
        (runUptimeCycles scenarioCfg env503 "site" 100 3) 3 100).snd.snd.any
          Event.isRequest = true)
    ∧ (siteStateOf (runUptimeCycles scenarioCfg env503 "site" 100 3)
        "site").circuit_breaker.is_open = false := by
  decide

/-- C2 (amended): the monitor consults no circuit-breaker gate — every
scheduled cycle for a site with a non-empty uptime endpoint list issues an
HTTP request regardless of the accumulated state; in the 503 scenario the
`StateManager`'s persisted failure counters for the site reach 3 after the
third failing cycle while `is_open` stays `False`, and the fourth cycle
still runs the check. -/
theorem no_breaker_gate_before_pipeline :
    (∀ (cfg : UptimeCfg) (env : String → EndpointOutcome) (site_name : String)
        (history_size : Nat) (st : ManagerState) (now : Int) (rtms : Nat),
      cfg.endpoints ≠ [] →
      (monitorCycleUptime cfg env site_name history_size st now
        rtms).snd.snd.any Event.isRequest = true)
    ∧ (siteStateOf (runUptimeCycles scenarioCfg env503 "site" 100 3)
        "site").circuit_breaker.failure_count = 3
    ∧ get_consecutive_failures (runUptimeCycles scenarioCfg env503 "site" 100 3)
        "uptime" "site" = 3
    ∧ (siteStateOf (runUptimeCycles scenarioCfg env503 "site" 100 3)
        "site").circuit_breaker.is_open = false
    ∧ ((monitorCycleUptime scenarioCfg env503 "site" 100
        (runUptimeCycles scenarioCfg env503 "site" 100 3) 3 100).snd.snd.any
          Event.isRequest = true) := by
  refine ⟨?_, by decide, by decide, by decide, by decide⟩
  intro cfg env site_name history_size st now rtms h
  exact uptimeCheck_issues_request cfg env now rtms h

/-- Witness for C2's amended statement: a first cycle on a fresh state for a
one-endpoint site issues an HTTP request. -/
theorem no_breaker_gate_before_pipeline_witness :
    (monitorCycleUptime scenarioCfg env503 "s2" 5 initialManagerState 0
      100).snd.snd.any Event.isRequest = true :=
  no_breaker_gate_before_pipeline.1 scenarioCfg env503 "s2" 5
    initialManagerState 0 100 (by decide)

end SiteMonitor
